import Mathlib

/-!
# terrain-thing: block placement interop, chunk provider and render loop

A shallow embedding of `src/interop/index.js` and `src/js/index.js`.

The JavaScript code is glue around external libraries (`vec3`,
`prismarine-chunk`, `prismarine-world`, `prismarine-viewer`, `three`, the
`terrain` module).  Every call the code makes on one of these collaborators is
recorded as an event of a trace; what a collaborator computes is a parameter of
the model.  JavaScript numbers are modelled as integers: the code performs no
arithmetic on coordinates, and the only subtraction (`performance.now() - start`)
feeds a log line.
-/

namespace TerrainThing

/-! ## `vec3` -/

/-- The `Vec3` of the `vec3` package: `new Vec3(x, y, z)` stores its three arguments. -/
structure Vec3 where
  x : Int
  y : Int
  z : Int
deriving DecidableEq, Repr

/-! ## `src/interop/index.js` -/

namespace Interop

/-- The part of a chunk object (`prismarine-chunk`) that `place` relies on.  `σ` is the
chunk's state and `ε` the exceptions its methods may throw.  A method returns the value it
completes with (or the exception thrown) together with the chunk state it leaves behind. -/
structure ChunkApi (σ ε : Type) where
  setBlockStateId : σ → Vec3 → Nat → Except ε Unit × σ
  getBlockStateId : σ → Vec3 → Nat

/-- A method call performed on the chunk argument. -/
inductive ChunkCall where
  | setBlockStateId (pos : Vec3) (stateId : Nat)
deriving DecidableEq, Repr

/-- Performs one method call on a chunk. -/
def runCall {σ ε : Type} (api : ChunkApi σ ε) (chunk : σ) : ChunkCall → Except ε Unit × σ
  | .setBlockStateId pos stateId => api.setBlockStateId chunk pos stateId

/-- Performs method calls in sequence; a thrown exception aborts the remaining calls and
propagates to the caller, the chunk staying as the throwing call left it. -/
def runCalls {σ ε : Type} (api : ChunkApi σ ε) (chunk : σ) : List ChunkCall → Except ε Unit × σ
  | [] => (.ok (), chunk)
  | c :: cs =>
    match runCall api chunk c with
    | (.ok _, chunk1) => runCalls api chunk1 cs
    | (.error e, chunk1) => (.error e, chunk1)

/-- The statements of the body of `place(chunk, x, y, z, block)`:
`chunk.setBlockStateId(new Vec3(x, y, z), block);`. -/
def placeCalls (x y z : Int) (block : Nat) : List ChunkCall :=
  [.setBlockStateId (Vec3.mk x y z) block]

/-- The function `place(chunk, x, y, z, block)` run against a chunk implementation. -/
def place {σ ε : Type} (api : ChunkApi σ ε) (chunk : σ) (x y z : Int) (block : Nat) :
    Except ε Unit × σ :=
  runCalls api chunk (placeCalls x y z block)

/-- A concrete chunk: an association list from positions to block state ids, newest first.
Positions never written hold id `0`.  Its `setBlockStateId` accepts every position. -/
abbrev ListChunk := List (Vec3 × Nat)

/-- Reads a `ListChunk`. -/
def ListChunk.get (s : ListChunk) (p : Vec3) : Nat :=
  match s.find? (fun e => decide (e.1 = p)) with
  | some e => e.2
  | none => 0

/-- The chunk implementation over `ListChunk`; it never throws. -/
def listChunkApi : ChunkApi ListChunk String where
  setBlockStateId := fun s p b => (.ok (), (p, b) :: s)
  getBlockStateId := ListChunk.get

/-- A chunk implementation that owns the column `0 ≤ x, z < 16` and throws on positions
outside of it, leaving the chunk untouched. -/
def guardedChunkApi : ChunkApi ListChunk String where
  setBlockStateId := fun s p b =>
    if 0 ≤ p.x ∧ p.x < 16 ∧ 0 ≤ p.z ∧ p.z < 16 then (.ok (), (p, b) :: s)
    else (.error "position outside of chunk", s)
  getBlockStateId := ListChunk.get

end Interop

/-! ## `src/js/index.js` -/

/-- The members of `terrain.SlopeMode` the code names. -/
inductive SlopeMode where
  | VonNeumann
deriving DecidableEq, Repr

/-- The external libraries `main` calls into.  `Cfg` is the value `terrain.init` returns,
`Chunk` the state of a `prismarine-chunk` column, `Ctl` the state of the `MapControls`
object. -/
structure Libs (Cfg Chunk Ctl : Type) where
  /-- Source: `terrain.init(slopeMode, viewDistance)` -/
  init : SlopeMode → Nat → Cfg
  /-- Source: `terrain.build_chunk(chunk, chunkX, chunkZ, config)`: fills the chunk in place; the
  result is the chunk after the call. -/
  build_chunk : Chunk → Int → Int → Cfg → Chunk
  /-- Source: `new Chunk()` for `Chunk = require('prismarine-chunk')(version)` -/
  newChunk : String → Chunk
  /-- Source: `new MapControls(viewer.camera, renderer.domElement)` -/
  newControls : Ctl
  /-- Source: `controls.translateY(d)` -/
  translateY : Int → Ctl → Ctl
  /-- Source: `controls.update()` -/
  update : Ctl → Ctl
  /-- Source: `controls.target` -/
  target : Ctl → Vec3

/-- A call made by `main`, by the chunk provider callback, by `animate` or by the resize
listener on a collaborator, or the completion of an awaited promise. -/
inductive Event (Cfg Chunk : Type) where
  | requireTerrain
  | terrainLoaded
  | terrainInit (mode : SlopeMode) (viewDistance : Nat)
  | requireWorld (version : String)
  | requireChunk (version : String)
  | newWorld
  | newChunk
  | performanceNow (reading : Int)
  | buildChunk (chunk : Chunk) (chunkX chunkZ : Int) (config : Cfg)
  | consoleLog (line : String)
  | newWorldView (viewDistance : Nat) (center : Vec3)
  | newRenderer
  | setPixelRatio (ratio : Nat)
  | setSize (width height : Nat)
  | appendChild
  | addResizeListener
  | newViewer
  | setVersion (version : String)
  | newMapControls
  | translateY (distance : Int)
  | viewerListen
  | worldViewInit (center : Vec3)
  | worldViewInitDone
  | cameraPositionSet (x y z : Int)
  | controlsUpdate
  | waitForChunksToRender
  | chunksRendered
  | requestAnimationFrame
  | readTarget (target : Vec3)
  | updatePosition (pos : Vec3)
  | viewerUpdate
  | rendererRender
  | cameraAspectSet (width height : Nat)
  | updateProjectionMatrix
deriving DecidableEq, Repr

/-- Source: `const viewDistance = 10` -/
def viewDistance : Nat := 10

/-- Source: `const version = '1.18';` -/
def version : String := "1.18"

/-- Source: `const center = new Vec3(0, 100, 0)` -/
def center : Vec3 := Vec3.mk 0 100 0

/-- Source: `const config = terrain.init(terrain.SlopeMode.VonNeumann, viewDistance)` -/
def config {Cfg Chunk Ctl : Type} (L : Libs Cfg Chunk Ctl) : Cfg :=
  L.init SlopeMode.VonNeumann viewDistance

/-- Where `main` stands: suspended at one of its three `await`s, past the last one (the
animation loop is running), or abandoned because an awaited promise rejected. -/
inductive Phase where
  | awaitTerrain
  | awaitInit
  | awaitChunks
  | running
  | failed
deriving DecidableEq, Repr

/-- The state of the page. -/
structure State (Cfg Chunk Ctl : Type) where
  phase : Phase
  /-- whether `main` got past `await require('terrain')`, so that the world, its chunk
  provider, the resize listener and the controls exist -/
  built : Bool
  /-- number of `animate` callbacks registered with the frame clock and not yet run -/
  pending : Nat
  /-- number of `performance.now()` calls made so far -/
  clockReads : Nat
  /-- lines written with `console.log`, oldest first -/
  console : List String
  controls : Ctl
  /-- all events so far, oldest first -/
  trace : List (Event Cfg Chunk)

/-- The window properties read by `main` and by the resize listener. -/
structure Window where
  devicePixelRatio : Nat
  innerWidth : Nat
  innerHeight : Nat
deriving DecidableEq, Repr

section Program

variable {Cfg Chunk Ctl : Type}

/-- Appends events to the trace of a state. -/
def emit (s : State Cfg Chunk Ctl) (es : List (Event Cfg Chunk)) : State Cfg Chunk Ctl :=
  { s with trace := s.trace ++ es }

/-- The line logged by the chunk provider:
"Generated chunk x: (chunkX) z: (chunkZ) in (time) ms". -/
def logLine (chunkX chunkZ time : Int) : String :=
  "Generated chunk x: " ++ toString chunkX ++ " z: " ++ toString chunkZ ++ " in " ++
    toString time ++ " ms"

/-- The chunk provider callback `(chunkX, chunkZ) => ...` handed to `new World`.  `clock k`
is what the `k`-th call of `performance.now()` returns.  The result is the returned chunk and
the state after the call. -/
def provider (L : Libs Cfg Chunk Ctl) (clock : Nat → Int) (chunkX chunkZ : Int)
    (s : State Cfg Chunk Ctl) : Chunk × State Cfg Chunk Ctl :=
  -- const chunk = new Chunk();
  let chunk0 := L.newChunk version
  -- const start = performance.now()
  let start := clock s.clockReads
  -- terrain.build_chunk(chunk, chunkX, chunkZ, config)
  let chunk := L.build_chunk chunk0 chunkX chunkZ (config L)
  -- const time = performance.now() - start
  let stop := clock (s.clockReads + 1)
  let time := stop - start
  -- console.log(...)
  let line := logLine chunkX chunkZ time
  -- return chunk;
  (chunk,
   { s with
     clockReads := s.clockReads + 2
     console := s.console ++ [line]
     trace := s.trace ++
       [.newChunk, .performanceNow start, .buildChunk chunk0 chunkX chunkZ (config L),
        .performanceNow stop, .consoleLog line] })

/-- The provider callback run for each of a list of chunk coordinates, in order. -/
def provideAll (L : Libs Cfg Chunk Ctl) (clock : Nat → Int) :
    List (Int × Int) → State Cfg Chunk Ctl → State Cfg Chunk Ctl
  | [], s => s
  | c :: cs, s => provideAll L clock cs (provider L clock c.1 c.2 s).2

/-- One execution of `animate`.  `sync` lists the chunk coordinates for which the world runs
the provider callback before the (not awaited) call `worldView.updatePosition` returns. -/
def animate (L : Libs Cfg Chunk Ctl) (clock : Nat → Int) (sync : List (Int × Int))
    (s : State Cfg Chunk Ctl) : State Cfg Chunk Ctl :=
  -- window.requestAnimationFrame(animate)
  let s1 := emit { s with pending := s.pending + 1 } [.requestAnimationFrame]
  -- if (controls) controls.update()      (`controls` is an object, hence truthy)
  let s2 := emit { s1 with controls := L.update s1.controls } [.controlsUpdate]
  -- worldView.updatePosition(controls.target)
  let pos := L.target s2.controls
  let s3 := emit s2 [.readTarget pos, .updatePosition pos]
  let s4 := provideAll L clock sync s3
  -- viewer.update()
  -- renderer.render(viewer.scene, viewer.camera)
  emit s4 [.viewerUpdate, .rendererRender]

/-- Runs `animate` for each of `n` callbacks taken from the frame clock. -/
def runCallbacks (L : Libs Cfg Chunk Ctl) (clock : Nat → Int) (sync : List (Int × Int)) :
    Nat → State Cfg Chunk Ctl → State Cfg Chunk Ctl
  | 0, s => s
  | n + 1, s => runCallbacks L clock sync n (animate L clock sync s)

/-- The state when `main()` is called and has run up to `await require('terrain')`. -/
def start (L : Libs Cfg Chunk Ctl) : State Cfg Chunk Ctl :=
  { phase := .awaitTerrain, built := false, pending := 0, clockReads := 0, console := [],
    controls := L.newControls, trace := [.requireTerrain] }

/-- The statements of `main` between `await require('terrain')` and
`await worldView.init(center)`. -/
def setup (L : Libs Cfg Chunk Ctl) (w : Window) (s : State Cfg Chunk Ctl) :
    State Cfg Chunk Ctl :=
  { s with
    phase := .awaitInit
    built := true
    controls := L.translateY 75 L.newControls
    trace := s.trace ++
      [.terrainLoaded,
       .terrainInit SlopeMode.VonNeumann viewDistance,
       .requireWorld version,
       .requireChunk version,
       .newWorld,
       .newWorldView viewDistance center,
       .newRenderer,
       -- window.devicePixelRatio || 1
       .setPixelRatio (if w.devicePixelRatio = 0 then 1 else w.devicePixelRatio),
       .setSize w.innerWidth w.innerHeight,
       .appendChild,
       .addResizeListener,
       .newViewer,
       .setVersion version,
       .newMapControls,
       .translateY 75,
       .viewerListen,
       .worldViewInit center] }

/-- The statements of `main` between `await worldView.init(center)` and
`await viewer.waitForChunksToRender()`. -/
def afterInit (L : Libs Cfg Chunk Ctl) (s : State Cfg Chunk Ctl) : State Cfg Chunk Ctl :=
  { s with
    phase := .awaitChunks
    controls := L.update s.controls
    trace := s.trace ++
      [.worldViewInitDone, .cameraPositionSet center.x center.y center.z, .controlsUpdate,
       .waitForChunksToRender] }

/-- The statements of `main` after `await viewer.waitForChunksToRender()`: `animate` is
defined and called once. -/
def afterChunks (L : Libs Cfg Chunk Ctl) (clock : Nat → Int) (sync : List (Int × Int))
    (s : State Cfg Chunk Ctl) : State Cfg Chunk Ctl :=
  animate L clock sync (emit { s with phase := .running } [.chunksRendered])

/-- The resize listener registered by `main`. -/
def onResize (w : Window) (s : State Cfg Chunk Ctl) : State Cfg Chunk Ctl :=
  emit s [.cameraAspectSet w.innerWidth w.innerHeight, .updateProjectionMatrix,
          .setSize w.innerWidth w.innerHeight]

/-- What the environment of the page does next. -/
inductive Input (Ctl : Type) where
  /-- the promise `main` awaits resolves; `w` is the window as `main` reads it next and `sync`
  the provider calls made inside `updatePosition` should `animate` run -/
  | resolve (w : Window) (sync : List (Int × Int))
  /-- the promise `main` awaits rejects -/
  | reject
  /-- the world calls the chunk provider callback -/
  | provide (chunkX chunkZ : Int)
  /-- the frame clock runs the callbacks registered with it -/
  | frame (sync : List (Int × Int))
  /-- the user moves the camera controls -/
  | user (move : Ctl → Ctl)
  /-- the window is resized -/
  | resize (w : Window)

/-- One step of the page. -/
def step (L : Libs Cfg Chunk Ctl) (clock : Nat → Int) (s : State Cfg Chunk Ctl) :
    Input Ctl → State Cfg Chunk Ctl
  | .resolve w sync =>
    match s.phase with
    | .awaitTerrain => setup L w s
    | .awaitInit => afterInit L s
    | .awaitChunks => afterChunks L clock sync s
    | .running => s
    | .failed => s
  | .reject =>
    match s.phase with
    | .running => s
    | _ => { s with phase := .failed }
  | .provide chunkX chunkZ => if s.built then (provider L clock chunkX chunkZ s).2 else s
  | .frame sync => runCallbacks L clock sync s.pending { s with pending := 0 }
  | .user move => if s.built then { s with controls := move s.controls } else s
  | .resize w => if s.built then onResize w s else s

/-- The state of the page after a sequence of steps from the call of `main()`. -/
def run (L : Libs Cfg Chunk Ctl) (clock : Nat → Int) (inputs : List (Input Ctl)) :
    State Cfg Chunk Ctl :=
  inputs.foldl (step L clock) (start L)

end Program

/-- Whether an event is one of the four effects of a tick named by the loop contract. -/
def Event.isTickEffect {Cfg Chunk : Type} : Event Cfg Chunk → Bool
  | .readTarget _ => true
  | .updatePosition _ => true
  | .viewerUpdate => true
  | .rendererRender => true
  | _ => false

/-- Whether an event is performed by `animate` itself. -/
def Event.isLoopEvent {Cfg Chunk : Type} : Event Cfg Chunk → Bool
  | .requestAnimationFrame => true
  | .readTarget _ => true
  | .updatePosition _ => true
  | .viewerUpdate => true
  | .rendererRender => true
  | _ => false

/-- Whether an event is a call of `terrain.build_chunk`. -/
def Event.isBuild {Cfg Chunk : Type} : Event Cfg Chunk → Bool
  | .buildChunk _ _ _ _ => true
  | _ => false

/-- Whether an event is performed by the chunk provider callback. -/
def Event.isProviderEvent {Cfg Chunk : Type} : Event Cfg Chunk → Bool
  | .newChunk => true
  | .performanceNow _ => true
  | .buildChunk _ _ _ _ => true
  | .consoleLog _ => true
  | _ => false

/-- Whether an event is a `window.requestAnimationFrame(animate)` call. -/
def Event.isFrameRequest {Cfg Chunk : Type} : Event Cfg Chunk → Bool
  | .requestAnimationFrame => true
  | _ => false

/-- Whether an event is a `renderer.render` call. -/
def Event.isRender {Cfg Chunk : Type} : Event Cfg Chunk → Bool
  | .rendererRender => true
  | _ => false

/-- Whether an event passes a view distance, a version tag or a generation config to a
collaborator. -/
def Event.carriesConfig {Cfg Chunk : Type} : Event Cfg Chunk → Bool
  | .terrainInit _ _ => true
  | .requireWorld _ => true
  | .requireChunk _ => true
  | .buildChunk _ _ _ _ => true
  | .newWorldView _ _ => true
  | .setVersion _ => true
  | _ => false

/-- An event agrees with the startup configuration when the view distance it carries is
`10`, the version tag it carries is "1.18" and the generation config it carries is the one
`terrain.init(VonNeumann, 10)` returned. -/
def Event.usesStartupConfig {Cfg Chunk Ctl : Type} (L : Libs Cfg Chunk Ctl) :
    Event Cfg Chunk → Prop
  | .terrainInit mode d => mode = SlopeMode.VonNeumann ∧ d = 10
  | .requireWorld v => v = "1.18"
  | .requireChunk v => v = "1.18"
  | .buildChunk _ _ _ cfg => cfg = L.init SlopeMode.VonNeumann 10
  | .newWorldView d _ => d = 10
  | .setVersion v => v = "1.18"
  | _ => True

/-- The events of provider calls are provider events that carry the startup config. -/
def ProviderEvents {Cfg Chunk Ctl : Type} (L : Libs Cfg Chunk Ctl)
    (es : List (Event Cfg Chunk)) : Prop :=
  ∀ e ∈ es, e.isProviderEvent = true ∧ e.usesStartupConfig L

/-- No event of `animate` occurs in the trace before both startup barriers have completed:
whenever the trace splits as `pre ++ e :: post` with `e` an event of `animate`, the
completion of `worldView.init` and the completion of `viewer.waitForChunksToRender` are
in `pre`. -/
def NoEarlyFrame {Cfg Chunk : Type} (t : List (Event Cfg Chunk)) : Prop :=
  ∀ pre e post, t = pre ++ e :: post → e.isLoopEvent = true →
    Event.worldViewInitDone ∈ pre ∧ Event.chunksRendered ∈ pre

/-- The invariant of the page that the theorems about reachable states rest on. -/
structure Inv {Cfg Chunk Ctl : Type} (L : Libs Cfg Chunk Ctl) (s : State Cfg Chunk Ctl) :
    Prop where
  pending_le : s.pending ≤ 1
  pending_zero : s.phase ≠ Phase.running → s.pending = 0
  no_early : NoEarlyFrame s.trace
  running_loaded : s.phase = Phase.running →
    Event.worldViewInitDone ∈ s.trace ∧ Event.chunksRendered ∈ s.trace
  chunks_loaded : s.phase = Phase.awaitChunks → Event.worldViewInitDone ∈ s.trace
  quiet : s.phase ≠ Phase.running → (s.trace.filter Event.isFrameRequest).length = 0
  config_ok : ∀ e ∈ s.trace, e.usesStartupConfig L

/-- Libraries for running the model on concrete inputs: the generation config is the pair
of arguments of `terrain.init`, a chunk is the list of (x, z, view distance) it was built
from, the controls are their target, `update` leaves the target alone. -/
def demoLibs : Libs (SlopeMode × Nat) (List (Int × Int × Nat)) Vec3 where
  init := fun m d => (m, d)
  build_chunk := fun c x z cfg => (x, z, cfg.2) :: c
  newChunk := fun _ => []
  newControls := Vec3.mk 0 0 0
  translateY := fun d c => Vec3.mk c.x (c.y + d) c.z
  update := fun c => c
  target := fun c => c

/-- A clock for running the model on concrete inputs: the `k`-th reading is `3 * k`. -/
def demoClock : Nat → Int := fun k => 3 * k

/-- A window for running the model on concrete inputs. -/
def demoWindow : Window := { devicePixelRatio := 2, innerWidth := 800, innerHeight := 600 }

/-! ## The stream window (`WorldView` of `prismarine-viewer`) -/

namespace StreamWindow

/-- Modelled from the spec: the `WorldView` class lives in `prismarine-viewer`, which is not
among the sources; only its construction and the calls of `init` and `updatePosition` are.
A ChunkCoordinate is a pair of integers (x, z). -/
abbrev ChunkCoordinate := Int × Int

/-- Modelled from the spec: the distance metric of the window (missing: `WorldView`), which
the spec lets be Euclidean or Chebyshev over chunk-grid coordinates. -/
inductive Metric where
  | chebyshev
  | euclidean
deriving DecidableEq, Repr

/-- Modelled from the spec: the test `distance(coord, center) ≤ view_distance` (missing:
`WorldView`).  The Euclidean test compares squares. -/
def within (m : Metric) (viewDistance : Nat) (p c : ChunkCoordinate) : Bool :=
  match m with
  | .chebyshev => decide (max (c.1 - p.1).natAbs (c.2 - p.2).natAbs ≤ viewDistance)
  | .euclidean => decide ((c.1 - p.1) ^ 2 + (c.2 - p.2) ^ 2 ≤ (viewDistance : Int) ^ 2)

/-- Modelled from the spec: the candidates for the target set (missing: `WorldView`), the
square of side `2 * viewDistance + 1` around the center, row by row. -/
def square (viewDistance : Nat) (p : ChunkCoordinate) : List ChunkCoordinate :=
  (List.range (2 * viewDistance + 1)).flatMap fun (i : Nat) =>
    (List.range (2 * viewDistance + 1)).map fun (j : Nat) =>
      (p.1 - (viewDistance : Int) + (i : Int), p.2 - (viewDistance : Int) + (j : Int))

/-- Modelled from the spec: `targetSet = { coord : distance(coord, newCenter) ≤ view_distance }`
(missing: `WorldView`). -/
def targetSet (m : Metric) (viewDistance : Nat) (p : ChunkCoordinate) : List ChunkCoordinate :=
  (square viewDistance p).filter (within m viewDistance p)

/-- Modelled from the spec: a request the window issues (missing: `WorldView`). -/
inductive Request where
  | load (c : ChunkCoordinate)
  | unload (c : ChunkCoordinate)
deriving DecidableEq, Repr

/-- Modelled from the spec: the state of a stream window (missing: `WorldView`).  The window
is Idle while `center` is `none` and Streaming afterwards. -/
structure WindowState where
  metric : Metric
  viewDistance : Nat
  center : Option ChunkCoordinate
  resident : List ChunkCoordinate
  requests : List Request
deriving DecidableEq, Repr

/-- Modelled from the spec: a window before `init` (missing: `WorldView`). -/
def idle (m : Metric) (viewDistance : Nat) : WindowState :=
  { metric := m, viewDistance := viewDistance, center := none, resident := [], requests := [] }

/-- Modelled from the spec: `update_center(newCenter)` (missing: `WorldView.updatePosition`):
compute the target set, `toLoad = targetSet − ResidentSet`, `toUnload = ResidentSet − targetSet`,
issue the load and unload requests, set `ResidentSet = targetSet`. -/
def update_center (w : WindowState) (newCenter : ChunkCoordinate) : WindowState :=
  let target := targetSet w.metric w.viewDistance newCenter
  let toLoad := target.filter fun c => !w.resident.contains c
  let toUnload := w.resident.filter fun c => !target.contains c
  { w with
    center := some newCenter
    resident := target
    requests := w.requests ++ toLoad.map Request.load ++ toUnload.map Request.unload }

/-- Modelled from the spec: `init(center)` (missing: `WorldView.init`) takes the window from
Idle to Streaming with the first center. -/
def init (w : WindowState) (c : ChunkCoordinate) : WindowState :=
  update_center w c

end StreamWindow

/-! ## Theorems: `place` -/

namespace Interop

theorem place_eq_setBlockStateId {σ ε : Type} (api : ChunkApi σ ε) (chunk : σ) (x y z : Int)
    (block : Nat) :
    place api chunk x y z block = api.setBlockStateId chunk (Vec3.mk x y z) block := by
  unfold place placeCalls
  simp only [runCalls, runCall]
  rcases h : api.setBlockStateId chunk (Vec3.mk x y z) block with ⟨r, chunk1⟩
  cases r with
  | ok u => cases u; rfl
  | error e => rfl

/-- C2, as stated, fails: `place` receives a chunk and no world, looks up no resident set
and checks no containment.  Handed a chunk on which nothing was ever stored and the far-away
position (1000, 64, 1000), it does not fail: it completes normally and the chunk now holds
the block. -/
theorem place_unchecked_position_succeeds :
    place listChunkApi [] 1000 64 1000 5 = (.ok (), [(Vec3.mk 1000 64 1000, 5)]) ∧
    (place listChunkApi [] 1000 64 1000 5).2 ≠ [] := by
  constructor
  · rfl
  · decide

/-- C2, amended: `place` raises no error of its own and checks nothing; it completes exactly
as the one call `chunk.setBlockStateId(Vec3(x, y, z), block)` does.  If that call throws, the
same exception reaches the caller of `place` and the chunk is left as the call left it (for
the column-guarded chunk: the out-of-column position is rejected and the chunk is unchanged);
if it completes, so does `place`. -/
theorem place_outcome_is_that_of_setBlockStateId :
    (∀ (σ ε : Type) (api : ChunkApi σ ε) (chunk : σ) (x y z : Int) (block : Nat),
      place api chunk x y z block = api.setBlockStateId chunk (Vec3.mk x y z) block) ∧
    place guardedChunkApi [] 1000 64 1000 5 = (.error "position outside of chunk", []) ∧
    place guardedChunkApi [] 3 64 4 5 = (.ok (), [(Vec3.mk 3 64 4, 5)]) := by
  refine ⟨fun σ ε api chunk x y z block => place_eq_setBlockStateId api chunk x y z block,
    ?_, ?_⟩
  · rfl
  · rfl

end Interop

/-! ## Lemmas: the chunk provider and `animate` -/

section Lemmas

variable {Cfg Chunk Ctl : Type}

theorem provider_trace (L : Libs Cfg Chunk Ctl) (clock : Nat → Int) (x z : Int)
    (s : State Cfg Chunk Ctl) :
    (provider L clock x z s).2.trace = s.trace ++
      [.newChunk, .performanceNow (clock s.clockReads),
       .buildChunk (L.newChunk version) x z (config L),
       .performanceNow (clock (s.clockReads + 1)),
       .consoleLog (logLine x z (clock (s.clockReads + 1) - clock s.clockReads))] := rfl

theorem config_eq (L : Libs Cfg Chunk Ctl) : config L = L.init SlopeMode.VonNeumann 10 := rfl

theorem provideAll_spec (L : Libs Cfg Chunk Ctl) (clock : Nat → Int) (cs : List (Int × Int)) :
    ∀ s : State Cfg Chunk Ctl,
      (provideAll L clock cs s).phase = s.phase ∧ (provideAll L clock cs s).pending = s.pending ∧
      (provideAll L clock cs s).built = s.built ∧
      (provideAll L clock cs s).controls = s.controls ∧
      ∃ es, ProviderEvents L es ∧ (provideAll L clock cs s).trace = s.trace ++ es := by
  induction cs with
  | nil =>
    intro s
    refine ⟨rfl, rfl, rfl, rfl, [], ?_, by simp [provideAll]⟩
    intro e he
    cases he
  | cons c cs ih =>
    intro s
    obtain ⟨h1, h2, h3, h4, es, hes, ht⟩ := ih (provider L clock c.1 c.2 s).2
    refine ⟨h1, h2, h3, h4,
      [.newChunk, .performanceNow (clock s.clockReads),
       .buildChunk (L.newChunk version) c.1 c.2 (config L),
       .performanceNow (clock (s.clockReads + 1)),
       .consoleLog (logLine c.1 c.2 (clock (s.clockReads + 1) - clock s.clockReads))] ++ es,
      ?_, ?_⟩
    · intro e he
      rcases List.mem_append.mp he with h | h
      · simp only [List.mem_cons, List.mem_singleton, List.not_mem_nil, or_false] at h
        rcases h with rfl | rfl | rfl | rfl | rfl <;>
          simp [Event.isProviderEvent, Event.usesStartupConfig, config, viewDistance]
      · exact hes e h
    · show (provideAll L clock cs (provider L clock c.1 c.2 s).2).trace = _
      rw [ht, provider_trace, List.append_assoc]

theorem providerEvent_not_loop {e : Event Cfg Chunk} (h : e.isProviderEvent = true) :
    e.isLoopEvent = false ∧ e.isTickEffect = false ∧ e.isFrameRequest = false ∧
    e.isRender = false := by
  cases e <;> simp_all [Event.isProviderEvent, Event.isLoopEvent, Event.isTickEffect,
    Event.isFrameRequest, Event.isRender]

theorem filter_providerEvents {L : Libs Cfg Chunk Ctl} {es : List (Event Cfg Chunk)}
    (h : ProviderEvents L es) :
    es.filter Event.isTickEffect = [] ∧ es.filter Event.isFrameRequest = [] ∧
    es.filter Event.isLoopEvent = [] := by
  refine ⟨?_, ?_, ?_⟩ <;>
  · rw [List.filter_eq_nil_iff]
    intro e he
    have := providerEvent_not_loop (h e he).1
    simp [this]

theorem animate_spec (L : Libs Cfg Chunk Ctl) (clock : Nat → Int) (sync : List (Int × Int))
    (s : State Cfg Chunk Ctl) :
    (animate L clock sync s).phase = s.phase ∧
    (animate L clock sync s).pending = s.pending + 1 ∧
    (animate L clock sync s).built = s.built ∧
    ∃ es, ProviderEvents L es ∧
      (animate L clock sync s).trace = s.trace ++
        ([.requestAnimationFrame, .controlsUpdate, .readTarget (L.target (L.update s.controls)),
          .updatePosition (L.target (L.update s.controls))] ++ es ++
         [.viewerUpdate, .rendererRender]) := by
  obtain ⟨h1, h2, h3, _, es, hes, ht⟩ := provideAll_spec L clock sync
    (emit (emit { emit { s with pending := s.pending + 1 } [.requestAnimationFrame] with
      controls := L.update s.controls } [.controlsUpdate])
      [.readTarget (L.target (L.update s.controls)),
       .updatePosition (L.target (L.update s.controls))])
  refine ⟨h1, h2, h3, es, hes, ?_⟩
  show (provideAll L clock sync _).trace ++ _ = _
  simp only [emit] at ht ⊢
  rw [ht]
  simp [List.append_assoc]

theorem loopEvent_of_frameRequest {e : Event Cfg Chunk} (h : e.isLoopEvent = false) :
    e.isFrameRequest = false := by
  cases e <;> simp_all [Event.isLoopEvent, Event.isFrameRequest]

theorem noEarly_append {t es : List (Event Cfg Chunk)} (ht : NoEarlyFrame t)
    (hes : ∀ e ∈ es, e.isLoopEvent = true →
      Event.worldViewInitDone ∈ t ∧ Event.chunksRendered ∈ t) :
    NoEarlyFrame (t ++ es) := by
  intro pre e post h he
  rcases List.append_eq_append_iff.mp h with ⟨a, rfl, h2⟩ | ⟨c, h1, h2⟩
  · have hmem : e ∈ es := by rw [h2]; simp
    obtain ⟨hi, hc⟩ := hes e hmem he
    exact ⟨List.mem_append_left _ hi, List.mem_append_left _ hc⟩
  · cases c with
    | nil =>
      have hmem : e ∈ es := by
        have : e :: post = es := by simpa using h2
        rw [← this]; simp
      have hpre : t = pre := by simpa using h1
      obtain ⟨hi, hc⟩ := hes e hmem he
      exact ⟨hpre ▸ hi, hpre ▸ hc⟩
    | cons x c =>
      have hx : e = x ∧ post = c ++ es := by simpa using h2
      obtain ⟨rfl, _⟩ := hx
      exact ht pre e c h1 he

theorem inv_start (L : Libs Cfg Chunk Ctl) : Inv L (start L) where
  pending_le := by simp [start]
  pending_zero := by simp [start]
  no_early := by
    intro pre e post h he
    have h1 : [Event.requireTerrain] = pre ++ e :: post := h
    cases pre with
    | nil =>
      have : Event.requireTerrain = e ∧ post = [] := by simpa using h1
      obtain ⟨rfl, _⟩ := this
      simp [Event.isLoopEvent] at he
    | cons x pre =>
      have := congrArg List.length h1
      simp at this
  running_loaded := by simp [start]
  chunks_loaded := by simp [start]
  quiet := by simp [start, Event.isFrameRequest]
  config_ok := by
    intro e he
    have : e = Event.requireTerrain := by simpa [start] using he
    subst this
    simp [Event.usesStartupConfig]

theorem inv_quiet_step {L : Libs Cfg Chunk Ctl} {s t : State Cfg Chunk Ctl} (h : Inv L s)
    (es : List (Event Cfg Chunk)) (htr : t.trace = s.trace ++ es)
    (hq : ∀ e ∈ es, e.isLoopEvent = false ∧ e.usesStartupConfig L)
    (hp : t.pending = s.pending)
    (hph : t.phase = s.phase ∨
      (s.phase ≠ Phase.running ∧ t.phase ≠ Phase.running ∧
        (t.phase = Phase.awaitChunks → Event.worldViewInitDone ∈ es))) : Inv L t where
  pending_le := by rw [hp]; exact h.pending_le
  pending_zero := by
    intro hr
    rw [hp]
    rcases hph with he | ⟨hs, _, _⟩
    · exact h.pending_zero (he ▸ hr)
    · exact h.pending_zero hs
  no_early := by
    rw [htr]
    refine noEarly_append h.no_early ?_
    intro e he hl
    rw [(hq e he).1] at hl
    cases hl
  running_loaded := by
    intro hr
    rcases hph with he | ⟨_, ht, _⟩
    · obtain ⟨hi, hc⟩ := h.running_loaded (he ▸ hr)
      rw [htr]
      exact ⟨List.mem_append_left _ hi, List.mem_append_left _ hc⟩
    · exact absurd hr ht
  chunks_loaded := by
    intro hr
    rw [htr]
    rcases hph with he | ⟨_, _, hi⟩
    · exact List.mem_append_left _ (h.chunks_loaded (he ▸ hr))
    · exact List.mem_append_right _ (hi hr)
  quiet := by
    intro hr
    have hs : s.phase ≠ Phase.running := by
      rcases hph with he | ⟨hs, _, _⟩
      · exact he ▸ hr
      · exact hs
    have h0 := h.quiet hs
    have h1 : es.filter Event.isFrameRequest = [] := by
      rw [List.filter_eq_nil_iff]
      intro e he
      simp [loopEvent_of_frameRequest (hq e he).1]
    rw [htr, List.filter_append, h1, List.append_nil]
    exact h0
  config_ok := by
    intro e he
    rw [htr] at he
    rcases List.mem_append.mp he with h1 | h1
    · exact h.config_ok e h1
    · exact (hq e h1).2

theorem inv_animate (L : Libs Cfg Chunk Ctl) (clock : Nat → Int) (sync : List (Int × Int))
    (s : State Cfg Chunk Ctl) (hph : s.phase = Phase.running) (hp : s.pending = 0)
    (hne : NoEarlyFrame s.trace) (hi : Event.worldViewInitDone ∈ s.trace)
    (hc : Event.chunksRendered ∈ s.trace) (hcfg : ∀ e ∈ s.trace, e.usesStartupConfig L) :
    Inv L (animate L clock sync s) := by
  obtain ⟨h1, h2, _, es, hes, ht⟩ := animate_spec L clock sync s
  refine ⟨by omega, ?_, ?_, ?_, ?_, ?_, ?_⟩
  · intro hr; exact absurd (h1.trans hph) hr
  · rw [ht]
    exact noEarly_append hne (fun _ _ _ => ⟨hi, hc⟩)
  · intro _
    rw [ht]
    exact ⟨List.mem_append_left _ hi, List.mem_append_left _ hc⟩
  · intro hr
    rw [h1, hph] at hr
    cases hr
  · intro hr; exact absurd (h1.trans hph) hr
  · intro e he
    rw [ht] at he
    rcases List.mem_append.mp he with h3 | h3
    · exact hcfg e h3
    · rcases List.mem_append.mp h3 with h4 | h4
      · rcases List.mem_append.mp h4 with h5 | h5
        · simp only [List.mem_cons, List.mem_singleton, List.not_mem_nil, or_false] at h5
          rcases h5 with rfl | rfl | rfl | rfl <;> simp [Event.usesStartupConfig]
        · exact (hes e h5).2
      · simp only [List.mem_cons, List.mem_singleton, List.not_mem_nil, or_false] at h4
        rcases h4 with rfl | rfl <;> simp [Event.usesStartupConfig]

theorem inv_step (L : Libs Cfg Chunk Ctl) (clock : Nat → Int) (s : State Cfg Chunk Ctl)
    (i : Input Ctl) (h : Inv L s) : Inv L (step L clock s i) := by
  cases i with
  | resolve w sync =>
    cases hph : s.phase with
    | awaitTerrain =>
      simp only [step, hph]
      refine inv_quiet_step h _ rfl ?_ rfl (Or.inr ⟨by simp [hph], by simp [setup], by simp [setup]⟩)
      simp [Event.isLoopEvent, Event.usesStartupConfig, version, viewDistance]
    | awaitInit =>
      simp only [step, hph]
      refine inv_quiet_step h _ rfl ?_ rfl
        (Or.inr ⟨by simp [hph], by simp [afterInit], by simp [afterInit]⟩)
      simp [Event.isLoopEvent, Event.usesStartupConfig]
    | awaitChunks =>
      simp only [step, hph, afterChunks]
      have hi := h.chunks_loaded hph
      have hz := h.pending_zero (by simp [hph])
      refine inv_animate L clock sync _ rfl (by simpa [emit] using hz) ?_ ?_ ?_ ?_
      · show NoEarlyFrame (s.trace ++ [Event.chunksRendered])
        refine noEarly_append h.no_early ?_
        intro e he hl
        have : e = Event.chunksRendered := by simpa using he
        subst this
        simp [Event.isLoopEvent] at hl
      · show Event.worldViewInitDone ∈ s.trace ++ [Event.chunksRendered]
        exact List.mem_append_left _ hi
      · show Event.chunksRendered ∈ s.trace ++ [Event.chunksRendered]
        simp
      · intro e he
        have he1 : e ∈ s.trace ++ [Event.chunksRendered] := he
        rcases List.mem_append.mp he1 with h1 | h1
        · exact h.config_ok e h1
        · have : e = Event.chunksRendered := by simpa using h1
          subst this
          simp [Event.usesStartupConfig]
    | running => simpa only [step, hph] using h
    | failed => simpa only [step, hph] using h
  | reject =>
    cases hph : s.phase with
    | running => simpa only [step, hph] using h
    | awaitTerrain =>
      simp only [step, hph]
      exact inv_quiet_step h [] (by simp) (by simp) rfl (Or.inr ⟨by simp [hph], by simp, by simp⟩)
    | awaitInit =>
      simp only [step, hph]
      exact inv_quiet_step h [] (by simp) (by simp) rfl (Or.inr ⟨by simp [hph], by simp, by simp⟩)
    | awaitChunks =>
      simp only [step, hph]
      exact inv_quiet_step h [] (by simp) (by simp) rfl (Or.inr ⟨by simp [hph], by simp, by simp⟩)
    | failed =>
      simp only [step, hph]
      exact inv_quiet_step h [] (by simp) (by simp) rfl (Or.inr ⟨by simp [hph], by simp, by simp⟩)
  | provide x z =>
    simp only [step]
    split
    · refine inv_quiet_step h _ (provider_trace L clock x z s) ?_ rfl (Or.inl rfl)
      simp [Event.isLoopEvent, Event.usesStartupConfig, config, viewDistance]
    · exact h
  | frame sync =>
    simp only [step]
    have hle := h.pending_le
    rcases Nat.eq_zero_or_pos s.pending with h0 | h0
    · rw [h0]
      simp only [runCallbacks]
      exact inv_quiet_step h [] (by simp) (by simp) (by simp [h0]) (Or.inl rfl)
    · have h1 : s.pending = 1 := by omega
      have hr : s.phase = Phase.running := by
        by_contra hn
        have := h.pending_zero hn
        omega
      rw [h1]
      simp only [runCallbacks]
      have hl := h.running_loaded hr
      exact inv_animate L clock sync _ hr rfl h.no_early hl.1 hl.2 h.config_ok
  | user move =>
    simp only [step]
    split
    · exact inv_quiet_step h [] (by simp) (by simp) rfl (Or.inl rfl)
    · exact h
  | resize w =>
    simp only [step]
    split
    · refine inv_quiet_step h _ rfl ?_ rfl (Or.inl rfl)
      simp [Event.isLoopEvent, Event.usesStartupConfig]
    · exact h

theorem foldl_inv (L : Libs Cfg Chunk Ctl) (clock : Nat → Int) (inputs : List (Input Ctl)) :
    ∀ s : State Cfg Chunk Ctl, Inv L s → Inv L (inputs.foldl (step L clock) s) := by
  induction inputs with
  | nil => intro s h; exact h
  | cons i is ih => intro s h; exact ih _ (inv_step L clock s i h)

theorem run_inv (L : Libs Cfg Chunk Ctl) (clock : Nat → Int) (inputs : List (Input Ctl)) :
    Inv L (run L clock inputs) :=
  foldl_inv L clock inputs _ (inv_start L)

end Lemmas

/-! ## Theorems: the render loop, the startup barrier, the chunk provider -/

section Claims

variable {Cfg Chunk Ctl : Type}

theorem animate_renders (L : Libs Cfg Chunk Ctl) (clock : Nat → Int) (sync : List (Int × Int))
    (s : State Cfg Chunk Ctl) : Event.rendererRender ∈ (animate L clock sync s).trace := by
  obtain ⟨_, _, _, es, _, ht⟩ := animate_spec L clock sync s
  rw [ht]
  simp

/-- C3: one execution of `animate` appends events to the trace among which the four effects
of the tick contract occur each exactly once and in this order: the target is read from the
controls (after `controls.update()`), `worldView.updatePosition` is called with that very
position, `viewer.update()` is called, and last `renderer.render` presents the frame. -/
theorem animate_effects_in_order (L : Libs Cfg Chunk Ctl) (clock : Nat → Int)
    (sync : List (Int × Int)) (s : State Cfg Chunk Ctl) :
    ∃ es, (animate L clock sync s).trace = s.trace ++ es ∧
      es.filter Event.isTickEffect =
        [Event.readTarget (L.target (L.update s.controls)),
         Event.updatePosition (L.target (L.update s.controls)),
         Event.viewerUpdate, Event.rendererRender] := by
  obtain ⟨_, _, _, es, hes, ht⟩ := animate_spec L clock sync s
  refine ⟨_, ht, ?_⟩
  simp [List.filter_append, (filter_providerEvents hes).1, Event.isTickEffect]

/-- C4: in every run of the page, every event of `animate` (its frame request, its window
update, its `renderer.render`) comes after the completion of `await worldView.init(center)`
and after the completion of `await viewer.waitForChunksToRender()`; and once the three
awaited promises have resolved the first frame has been presented. -/
theorem no_frame_before_startup_barrier (L : Libs Cfg Chunk Ctl) (clock : Nat → Int) :
    (∀ (inputs : List (Input Ctl)) (pre : List (Event Cfg Chunk)) (e : Event Cfg Chunk)
        (post : List (Event Cfg Chunk)),
      (run L clock inputs).trace = pre ++ e :: post → e.isLoopEvent = true →
        Event.worldViewInitDone ∈ pre ∧ Event.chunksRendered ∈ pre) ∧
    (∀ (w1 w2 w3 : Window) (s1 s2 s3 : List (Int × Int)),
      Event.rendererRender ∈
        (run L clock [.resolve w1 s1, .resolve w2 s2, .resolve w3 s3]).trace) := by
  refine ⟨fun inputs => (run_inv L clock inputs).no_early, ?_⟩
  intro w1 w2 w3 s1 s2 s3
  show Event.rendererRender ∈ (animate L clock s3 _).trace
  exact animate_renders L clock s3 _

/-- Witness for C4: with all promises resolving and no provider call, the trace of the demo
page splits at its first frame request, and both barrier completions lie before it. -/
theorem no_frame_before_startup_barrier_witness :
    Event.worldViewInitDone ∈
        ((run demoLibs demoClock [.resolve demoWindow [], .resolve demoWindow [],
          .resolve demoWindow []]).trace.take 23) ∧
      Event.chunksRendered ∈
        ((run demoLibs demoClock [.resolve demoWindow [], .resolve demoWindow [],
          .resolve demoWindow []]).trace.take 23) :=
  (no_frame_before_startup_barrier demoLibs demoClock).1
    [.resolve demoWindow [], .resolve demoWindow [], .resolve demoWindow []]
    _ Event.requestAnimationFrame
    [.controlsUpdate, .readTarget (Vec3.mk 0 75 0), .updatePosition (Vec3.mk 0 75 0),
     .viewerUpdate, .rendererRender]
    (by decide) rfl

/-- C5: one invocation of the chunk provider callback for (chunkX, chunkZ) first creates a
new chunk, calls `terrain.build_chunk` exactly once, on that new chunk, with the coordinate
unchanged and with the config `terrain.init(VonNeumann, 10)` built at startup, and returns
the chunk as `build_chunk` left it. -/
theorem provider_builds_once (L : Libs Cfg Chunk Ctl) (clock : Nat → Int) (chunkX chunkZ : Int)
    (s : State Cfg Chunk Ctl) :
    ∃ es, (provider L clock chunkX chunkZ s).2.trace = s.trace ++ es ∧
      es.head? = some Event.newChunk ∧
      es.filter Event.isBuild =
        [Event.buildChunk (L.newChunk version) chunkX chunkZ (config L)] ∧
      config L = L.init SlopeMode.VonNeumann 10 ∧
      (provider L clock chunkX chunkZ s).1 =
        L.build_chunk (L.newChunk version) chunkX chunkZ (config L) :=
  ⟨_, provider_trace L clock chunkX chunkZ s, rfl, by simp [Event.isBuild], rfl, rfl⟩

/-- C7: the chunk returned by the chunk provider callback is the same for any two clocks and
any two states of the page (number of clock readings so far, console contents, trace): it is
a function of the coordinate and the libraries alone, `build_chunk` being a function of its
four arguments. -/
theorem provider_result_ignores_clock_and_log (L : Libs Cfg Chunk Ctl) (clock1 clock2 : Nat → Int)
    (chunkX chunkZ : Int) (s1 s2 : State Cfg Chunk Ctl) :
    (provider L clock1 chunkX chunkZ s1).1 = (provider L clock2 chunkX chunkZ s2).1 ∧
    (provider L clock1 chunkX chunkZ s1).1 =
      L.build_chunk (L.newChunk version) chunkX chunkZ (L.init SlopeMode.VonNeumann 10) :=
  ⟨rfl, rfl⟩

/-- C9: in every run of the page, every view distance handed to `terrain.init` or to
`new WorldView` is 10, every version tag handed to the World factory, the Chunk factory or
`viewer.setVersion` is "1.18", and every config handed to `terrain.build_chunk` is the value
`terrain.init(VonNeumann, 10)`; once `main` is past its first `await` these values have been
handed out exactly once each, in this order. -/
theorem startup_configuration_is_fixed (L : Libs Cfg Chunk Ctl) (clock : Nat → Int) :
    (∀ (inputs : List (Input Ctl)) (e : Event Cfg Chunk), e ∈ (run L clock inputs).trace →
      match e with
      | .terrainInit mode d => mode = SlopeMode.VonNeumann ∧ d = 10
      | .newWorldView d _ => d = 10
      | .requireWorld v => v = "1.18"
      | .requireChunk v => v = "1.18"
      | .setVersion v => v = "1.18"
      | .buildChunk _ _ _ cfg => cfg = L.init SlopeMode.VonNeumann 10
      | _ => True) ∧
    (∀ (w : Window) (sync : List (Int × Int)),
      (run L clock [.resolve w sync]).trace.filter Event.carriesConfig =
        [.terrainInit SlopeMode.VonNeumann 10, .requireWorld "1.18", .requireChunk "1.18",
         .newWorldView 10 (Vec3.mk 0 100 0), .setVersion "1.18"]) := by
  constructor
  · intro inputs e he
    have h := (run_inv L clock inputs).config_ok e he
    cases e <;> exact h
  · intro w sync
    rfl

/-- Witness for C9: in the demo run with two provider calls, the `build_chunk` call recorded
last carries the config `terrain.init(VonNeumann, 10)`. -/
theorem startup_configuration_is_fixed_witness :
    ((SlopeMode.VonNeumann, 10) : SlopeMode × Nat) = demoLibs.init SlopeMode.VonNeumann 10 :=
  (startup_configuration_is_fixed demoLibs demoClock).1
    [.resolve demoWindow [], .provide 3 4, .provide 0 0]
    (.buildChunk [] 0 0 (SlopeMode.VonNeumann, 10)) (by decide)

end Claims

/-! ## Theorems: the stream window -/

namespace StreamWindow

theorem mem_square (viewDistance : Nat) (p c : ChunkCoordinate) :
    c ∈ square viewDistance p ↔
      p.1 - viewDistance ≤ c.1 ∧ c.1 ≤ p.1 + viewDistance ∧
      p.2 - viewDistance ≤ c.2 ∧ c.2 ≤ p.2 + viewDistance := by
  obtain ⟨c1, c2⟩ := c
  simp only [square, List.mem_flatMap, List.mem_map, List.mem_range, Prod.mk.injEq]
  constructor
  · rintro ⟨i, hi, j, hj, h1, h2⟩
    omega
  · rintro ⟨h1, h2, h3, h4⟩
    refine ⟨(c1 - (p.1 - viewDistance)).toNat, by omega, (c2 - (p.2 - viewDistance)).toNat,
      by omega, by omega, by omega⟩

theorem within_chebyshev (viewDistance : Nat) (p c : ChunkCoordinate) :
    within Metric.chebyshev viewDistance p c = true ↔
      |c.1 - p.1| ≤ viewDistance ∧ |c.2 - p.2| ≤ viewDistance := by
  simp only [within, decide_eq_true_eq, max_le_iff, abs_le]
  omega

theorem within_euclidean (viewDistance : Nat) (p c : ChunkCoordinate) :
    within Metric.euclidean viewDistance p c = true ↔
      (c.1 - p.1) ^ 2 + (c.2 - p.2) ^ 2 ≤ (viewDistance : Int) ^ 2 := by
  simp [within]

theorem within_square (m : Metric) (viewDistance : Nat) (p c : ChunkCoordinate)
    (h : within m viewDistance p c = true) : c ∈ square viewDistance p := by
  rw [mem_square]
  cases m with
  | chebyshev =>
    rw [within_chebyshev] at h
    simp only [abs_le] at h
    omega
  | euclidean =>
    rw [within_euclidean] at h
    have hv : (0 : Int) ≤ viewDistance := Int.ofNat_nonneg _
    have h1 : (c.1 - p.1) ^ 2 ≤ (viewDistance : Int) ^ 2 := by nlinarith [sq_nonneg (c.2 - p.2)]
    have h2 : (c.2 - p.2) ^ 2 ≤ (viewDistance : Int) ^ 2 := by nlinarith [sq_nonneg (c.1 - p.1)]
    have a1 := abs_le_of_sq_le_sq' h1 hv
    have a2 := abs_le_of_sq_le_sq' h2 hv
    omega

theorem mem_targetSet (m : Metric) (viewDistance : Nat) (p c : ChunkCoordinate) :
    c ∈ targetSet m viewDistance p ↔ within m viewDistance p c = true := by
  unfold targetSet
  rw [List.mem_filter]
  exact ⟨fun h => h.2, fun h => ⟨within_square m viewDistance p c h, h⟩⟩

/-- C8 (on the stream window as the spec describes it): after `update_center(p)`, and after
`init(p)`, a chunk coordinate is resident exactly when its distance to `p` under the
configured metric is at most the view distance (Chebyshev: both coordinate differences are at
most the view distance in absolute value; Euclidean: the squared differences sum to at most
its square); with the Chebyshev metric, view distance 1 and center (0, 0) the resident set is
the 9 chunks around (0, 0), whatever was resident before (with the Euclidean metric it is the
5 chunks of the plus shape). -/
theorem resident_set_is_target_set :
    (∀ (w : WindowState) (p c : ChunkCoordinate),
      (c ∈ (update_center w p).resident ↔ within w.metric w.viewDistance p c = true) ∧
      (c ∈ (init w p).resident ↔ within w.metric w.viewDistance p c = true)) ∧
    (∀ (viewDistance : Nat) (p c : ChunkCoordinate),
      (within Metric.chebyshev viewDistance p c = true ↔
        |c.1 - p.1| ≤ viewDistance ∧ |c.2 - p.2| ≤ viewDistance) ∧
      (within Metric.euclidean viewDistance p c = true ↔
        (c.1 - p.1) ^ 2 + (c.2 - p.2) ^ 2 ≤ (viewDistance : Int) ^ 2)) ∧
    (∀ (c0 : Option ChunkCoordinate) (r : List ChunkCoordinate) (q : List Request),
      (update_center { metric := Metric.chebyshev, viewDistance := 1, center := c0,
                       resident := r, requests := q } (0, 0)).resident =
        [(-1, -1), (-1, 0), (-1, 1), (0, -1), (0, 0), (0, 1), (1, -1), (1, 0), (1, 1)]) ∧
    (init (idle Metric.chebyshev 1) (0, 0)).resident =
        [(-1, -1), (-1, 0), (-1, 1), (0, -1), (0, 0), (0, 1), (1, -1), (1, 0), (1, 1)] ∧
    (init (idle Metric.euclidean 1) (0, 0)).resident =
        [(-1, 0), (0, -1), (0, 0), (0, 1), (1, 0)] := by
  refine ⟨fun w p c => ⟨mem_targetSet _ _ p c, mem_targetSet _ _ p c⟩,
    fun d p c => ⟨within_chebyshev d p c, within_euclidean d p c⟩, ?_, ?_, ?_⟩
  · intro c0 r q
    show targetSet Metric.chebyshev 1 (0, 0) = _
    decide
  · decide
  · decide

end StreamWindow

end TerrainThing
